import Mathlib

/-!
Verification of the voting and catalog-pagination core of the botanim bot.

The embedding below follows `botanim_bot/bot.py` and `botanim_bot/config.py`.
The storage and catalog modules (`books.py`, `votings.py`) are external
collaborators here: the active-voting lookup is a boolean input, the catalog
resolver is a function parameter, and the storage write performed by
`save_vote` is recorded in the returned effects instead of being executed.
-/

namespace Botanim

/-! Constants from `botanim_bot/config.py`.  The two callback constants are
named `ALL_BOOKS_CALLBACK_PATTERN` and `VOTE_BOOKS_CALLBACK_PATTERN` in the
source. -/

def VOTE_ELEMENTS_COUNT : Nat := 3

def ALL_BOOKS_CALLBACK : String := "all_books_"

def VOTE_BOOKS_CALLBACK : String := "vote_"

/-! Data model (spec section 3).  Only the fields the verified code observes
are kept: the handlers never read book fields, they only count, reorder and
forward `Book` values. -/

structure Book where
  id : Nat
  name : String
deriving DecidableEq, Repr

structure Category where
  name : String
  books : List Book
deriving DecidableEq, Repr

/-! Embedding of the extraction stage of `vote_process`:
`re.findall(r"\d+", user_message)` returns the maximal runs of digit
characters of the text, left to right.  `findallAux` is the scanner:
`acc` holds the digit run currently being read, reversed. -/

def findallAux : List Char → List Char → List (List Char)
  | [], acc => if acc.isEmpty then [] else [acc.reverse]
  | c :: cs, acc =>
    if c.isDigit then findallAux cs (c :: acc)
    else if acc.isEmpty then findallAux cs acc
    else acc.reverse :: findallAux cs []

def findallDigits (text : List Char) : List (List Char) :=
  findallAux text []

/-- Python `int` applied to a run of digit characters. -/
def runToNat (run : List Char) : Nat :=
  run.foldl (fun n c => 10 * n + (c.toNat - 48)) 0

/-- Distinct values of a list, keeping the first occurrence of each value in
order.  `dedupFirst l` has the same length as Python `set(l)` and lists the
values in first-occurrence order. -/
def dedupFirst (l : List Nat) : List Nat :=
  l.foldl (fun acc n => if n ∈ acc then acc else acc ++ [n]) []

/-! Embedding of `_get_categories_keyboard` from `bot.py`.  The source builds
one row of three inline buttons; alongside the rendered callback strings we
keep the two computed indices as fields so theorems can speak about them. -/

structure InlineKeyboard where
  prevData : String
  middleLabel : String
  middleData : String
  nextData : String
  prevIndex : Int
  nextIndex : Int
deriving DecidableEq, Repr

def _get_categories_keyboard (currentIndex overallCount : Int)
    (pfx : String) : InlineKeyboard :=
  let prevIndex := if currentIndex - 1 < 0 then overallCount - 1
    else currentIndex - 1
  let nextIndex := if currentIndex + 1 > overallCount - 1 then 0
    else currentIndex + 1
  { prevData := pfx ++ toString prevIndex
    middleLabel := toString (currentIndex + 1) ++ "/" ++ toString overallCount
    middleData := " "
    nextData := pfx ++ toString nextIndex
    prevIndex := prevIndex
    nextIndex := nextIndex }

/-! Embedding of `vote_process` from `bot.py`.  The external collaborators
are inputs: `hasActualVoting` is whether `get_actual_voting()` returned a
voting, `resolveBooks` stands for `get_books_by_numbers` (defined in the
external `books.py`).  The effects record which message was sent, with which
argument list the resolver was called (if at all), and which ballot was
passed to `save_vote` (if any). -/

inductive VoteResponse where
  | noActualVoting
  | incorrectInput
  | incorrectBooks
  | success (books : List Book)
deriving DecidableEq, Repr

structure VoteEffects where
  response : VoteResponse
  resolutionArg : Option (List (List Char))
  savedBallot : Option (List Book)
deriving DecidableEq, Repr

def vote_process (hasActualVoting : Bool)
    (resolveBooks : List (List Char) → List Book)
    (userMessage : List Char) : VoteEffects :=
  if !hasActualVoting then
    { response := .noActualVoting, resolutionArg := none, savedBallot := none }
  else
    let numbers := findallDigits userMessage
    if (dedupFirst (numbers.map runToNat)).length ≠ VOTE_ELEMENTS_COUNT then
      { response := .incorrectInput, resolutionArg := none, savedBallot := none }
    else
      let books := resolveBooks numbers
      if books.length ≠ VOTE_ELEMENTS_COUNT then
        { response := .incorrectBooks, resolutionArg := some numbers,
          savedBallot := none }
      else
        { response := .success books, resolutionArg := some numbers,
          savedBallot := some books }

/-- Modelled from the spec: `get_books_by_numbers` lives in
`botanim_bot/books.py`, which is not among the provided sources (only its
caller `vote_process` is).  Per spec section 4.1 (`resolveNumbers`) and
section 4.3 stage 5 (Accept), it treats the requested numbers as a set kept
in first-occurrence order, maps each 1-based number to the book at that
position of the flattened eligible catalog, and drops numbers outside
`[1, totalCount]`, so a partial resolution surfaces as a short result list
that the caller rejects. -/
def get_books_by_numbers (eligible : List Book)
    (numbers : List (List Char)) : List Book :=
  (dedupFirst (numbers.map runToNat)).filterMap
    (fun n => if n = 0 then none else eligible[n - 1]?)

/-! Embedding of the button handlers `vote_button` and `all_books_button`.
The guard `not query.data or not query.data.strip()` holds exactly when the
callback data is absent, empty or whitespace-only; `query.answer()` is
always awaited first, so `ignored` means: answered, nothing edited, catalog
never read.  The dispatcher regex guarantees the data is the configured
string followed by digits, so `int(query.data[pattern_prefix_length:])` is
modelled by `runToNat` on the dropped-suffix characters.  Python list
indexing raises `IndexError` on an out-of-range index; no handler catches
it, which the embedding records as the `fault` outcome. -/

inductive ButtonOutcome where
  | ignored
  | edited (categoryIndex : Nat) (keyboard : InlineKeyboard)
  | fault
deriving DecidableEq, Repr

def vote_button (queryData : Option (List Char))
    (categories : List Category) : ButtonOutcome :=
  match queryData with
  | none => .ignored
  | some d =>
    if d.all Char.isWhitespace then .ignored
    else
      let idx := runToNat (d.drop VOTE_BOOKS_CALLBACK.length)
      if idx < categories.length then
        .edited idx (_get_categories_keyboard (Int.ofNat idx)
          (Int.ofNat categories.length) VOTE_BOOKS_CALLBACK)
      else .fault

def all_books_button (queryData : Option (List Char))
    (categories : List Category) : ButtonOutcome :=
  match queryData with
  | none => .ignored
  | some d =>
    if d.all Char.isWhitespace then .ignored
    else
      let idx := runToNat (d.drop ALL_BOOKS_CALLBACK.length)
      if idx < categories.length then
        .edited idx (_get_categories_keyboard (Int.ofNat idx)
          (Int.ofNat categories.length) ALL_BOOKS_CALLBACK)
      else .fault

/-! Embedding of the commands `vote` and `all_books`.  Both render the first
category page; `categories_with_books[0]` raises an uncaught `IndexError`
when the catalog yields zero categories, recorded as `fault`. -/

inductive CommandOutcome where
  | noActualVoting
  | noMessage
  | fault
  | replied (categoryIndex : Nat) (keyboard : InlineKeyboard)
deriving DecidableEq, Repr

def vote (hasActualVoting hasMessage : Bool)
    (categories : List Category) : CommandOutcome :=
  if !hasActualVoting then .noActualVoting
  else if !hasMessage then .noMessage
  else if categories.isEmpty then .fault
  else .replied 0 (_get_categories_keyboard 0 (Int.ofNat categories.length)
    VOTE_BOOKS_CALLBACK)

def all_books (hasMessage : Bool) (categories : List Category) :
    CommandOutcome :=
  if !hasMessage then .noMessage
  else if categories.isEmpty then .fault
  else .replied 0 (_get_categories_keyboard 0 (Int.ofNat categories.length)
    ALL_BOOKS_CALLBACK)

/-! ### Claim C4 -/

/-- Claim C4: for every total `N > 0`, every current index `i` in `[0, N)`
and every callback tag, the previous and next indices computed by
`_get_categories_keyboard` equal `(i - 1) % N` and `(i + 1) % N`, and both
lie in `[0, N)`. -/
theorem keyboard_wrap_is_mod (N i : Int) (p : String)
    (hN : 0 < N) (h0 : 0 ≤ i) (hi : i < N) :
    (_get_categories_keyboard i N p).prevIndex = (i - 1) % N ∧
    (_get_categories_keyboard i N p).nextIndex = (i + 1) % N ∧
    0 ≤ (_get_categories_keyboard i N p).prevIndex ∧
    (_get_categories_keyboard i N p).prevIndex < N ∧
    0 ≤ (_get_categories_keyboard i N p).nextIndex ∧
    (_get_categories_keyboard i N p).nextIndex < N := by
  simp only [_get_categories_keyboard]
  refine ⟨?_, ?_, ?_, ?_, ?_, ?_⟩
  · split
    · have hi0 : i = 0 := by omega
      subst hi0
      have h1 : (0 - 1 + N * 1) % N = (0 - 1) % N :=
        Int.add_mul_emod_self_left (0 - 1) N 1
      have h2 : (0 - 1 + N * 1 : Int) = N - 1 := by ring
      rw [← h1, h2, Int.emod_eq_of_lt (by omega) (by omega)]
    · rw [Int.emod_eq_of_lt (by omega) (by omega)]
  · split
    · have hi1 : i = N - 1 := by omega
      subst hi1
      have h2 : (N - 1 + 1 : Int) = N := by ring
      rw [h2, Int.emod_self]
    · rw [Int.emod_eq_of_lt (by omega) (by omega)]
  all_goals split <;> omega

/-- Witness for C4 at `i = 0`, `N = 2`: the backward step wraps to `1` and
the forward step goes to `1`. -/
theorem keyboard_wrap_is_mod_witness :
    (0 : Int) < 2 ∧ (0 : Int) ≤ 0 ∧ (0 : Int) < 2 ∧
    (_get_categories_keyboard 0 2 "vote_").prevIndex = (0 - 1) % 2 :=
  ⟨by decide, by decide, by decide,
    (keyboard_wrap_is_mod 2 0 "vote_" (by decide) (by decide) (by decide)).1⟩

/-! ### Claim C5 -/

/-- Claim C5: cyclic navigation round-trips: for every total `N > 0` and
index `i` in `[0, N)`, taking the backward step of
`_get_categories_keyboard` and then the forward step returns to `i`. -/
theorem keyboard_wrap_round_trip (N i : Int) (p : String)
    (_hN : 0 < N) (h0 : 0 ≤ i) (hi : i < N) :
    (_get_categories_keyboard
      ((_get_categories_keyboard i N p).prevIndex) N p).nextIndex = i := by
  simp only [_get_categories_keyboard]
  split <;> split <;> omega

/-- Witness for C5 at `i = 0`, `N = 3`: stepping back to `2` and then
forward returns to `0`. -/
theorem keyboard_wrap_round_trip_witness :
    (0 : Int) < 3 ∧ (0 : Int) ≤ 0 ∧ (0 : Int) < 3 ∧
    (_get_categories_keyboard
      ((_get_categories_keyboard 0 3 "vote_").prevIndex) 3 "vote_").nextIndex
      = 0 :=
  ⟨by decide, by decide, by decide,
    keyboard_wrap_round_trip 3 0 "vote_" (by decide) (by decide) (by decide)⟩

/-! ### Claim C1 -/

/-- Claim C1: in `vote_process` the cardinality check precedes resolution:
whenever the set of distinct extracted integers has size different from
`VOTE_ELEMENTS_COUNT` (which equals 3), the vote is rejected with the
wrong-cardinality message and the resolver `get_books_by_numbers` is never
called, no matter what it would return; and the no-active-voting check
precedes both: with no active voting the no-voting message is produced for
every message text. -/
theorem checks_precede_resolution
    (resolveBooks : List (List Char) → List Book) (text : List Char) :
    VOTE_ELEMENTS_COUNT = 3 ∧
    ((dedupFirst ((findallDigits text).map runToNat)).length ≠
        VOTE_ELEMENTS_COUNT →
      (vote_process true resolveBooks text).response = .incorrectInput ∧
      (vote_process true resolveBooks text).resolutionArg = none) ∧
    ((vote_process false resolveBooks text).response = .noActualVoting ∧
      (vote_process false resolveBooks text).resolutionArg = none) := by
  refine ⟨rfl, ?_, rfl, rfl⟩
  intro h
  refine ⟨?_, ?_⟩ <;> simp [vote_process, h]

/-- Witness for C1: the text "1 2" extracts only two distinct numbers, and
with an active voting the wrong-cardinality message is produced. -/
theorem checks_precede_resolution_witness :
    (dedupFirst ((findallDigits "1 2".data).map runToNat)).length ≠
      VOTE_ELEMENTS_COUNT ∧
    (vote_process true (fun _ => ([] : List Book)) "1 2".data).response =
      .incorrectInput :=
  ⟨by decide,
    ((checks_precede_resolution (fun _ => []) "1 2".data).2.1 (by decide)).1⟩

/-! ### Claim C2 -/

/-- Claim C2: a vote attempt that fails validation at any stage (no active
voting, wrong cardinality, or unresolved books) performs no storage write:
no ballot is passed to `save_vote`, so the stored ballot of the voter is
unchanged by the failed attempt. -/
theorem rejected_vote_not_saved (hasActualVoting : Bool)
    (resolveBooks : List (List Char) → List Book) (text : List Char)
    (h : (vote_process hasActualVoting resolveBooks text).response =
        .noActualVoting ∨
      (vote_process hasActualVoting resolveBooks text).response =
        .incorrectInput ∨
      (vote_process hasActualVoting resolveBooks text).response =
        .incorrectBooks) :
    (vote_process hasActualVoting resolveBooks text).savedBallot = none := by
  by_cases hv : hasActualVoting = true
  · by_cases hc : (dedupFirst ((findallDigits text).map runToNat)).length =
        VOTE_ELEMENTS_COUNT
    · by_cases hb : (resolveBooks (findallDigits text)).length =
          VOTE_ELEMENTS_COUNT
      · simp [vote_process, hv, hc, hb] at h
      · simp [vote_process, hv, hc, hb]
    · simp [vote_process, hv, hc]
  · simp only [Bool.not_eq_true] at hv
    simp [vote_process, hv]

/-- Witness for C2: with no active voting, the attempt is rejected and no
ballot is saved. -/
theorem rejected_vote_not_saved_witness :
    ((vote_process false (fun _ => ([] : List Book)) "1 2 3".data).response =
        .noActualVoting ∨
      (vote_process false (fun _ => ([] : List Book)) "1 2 3".data).response =
        .incorrectInput ∨
      (vote_process false (fun _ => ([] : List Book)) "1 2 3".data).response =
        .incorrectBooks) ∧
    (vote_process false (fun _ => ([] : List Book)) "1 2 3".data).savedBallot =
      none :=
  ⟨Or.inl rfl,
    rejected_vote_not_saved false (fun _ => []) "1 2 3".data (Or.inl rfl)⟩

/-! ### Claim C10 -/

/-- Claim C10: the cardinality check of `vote_process` counts distinct
integer values, not distinct digit-run strings, and the unreduced run list,
duplicates included, is what is passed on to resolution.  The runs of
"1 01 2 3" are four pairwise distinct strings whose integer values collapse
to the three distinct numbers 1, 2, 3, so such an input passes the
cardinality check for `VOTE_ELEMENTS_COUNT = 3` and all four runs reach the
resolver. -/
theorem cardinality_counts_distinct_values
    (resolveBooks : List (List Char) → List Book) (text : List Char)
    (h : (dedupFirst ((findallDigits text).map runToNat)).length =
      VOTE_ELEMENTS_COUNT) :
    (vote_process true resolveBooks text).resolutionArg =
      some (findallDigits text) ∧
    findallDigits "1 01 2 3".data = [['1'], ['0', '1'], ['2'], ['3']] ∧
    (findallDigits "1 01 2 3".data).map runToNat = [1, 1, 2, 3] ∧
    dedupFirst ((findallDigits "1 01 2 3".data).map runToNat) = [1, 2, 3] := by
  refine ⟨?_, by decide, by decide, by decide⟩
  by_cases hb : (resolveBooks (findallDigits text)).length = VOTE_ELEMENTS_COUNT
  · simp [vote_process, h, hb]
  · simp [vote_process, h, hb]

/-- Witness for C10 at the input "1 01 2 3": the cardinality check passes
and the resolver receives all four digit runs. -/
theorem cardinality_counts_distinct_values_witness :
    (dedupFirst ((findallDigits "1 01 2 3".data).map runToNat)).length =
      VOTE_ELEMENTS_COUNT ∧
    (vote_process true (fun _ => ([] : List Book))
        "1 01 2 3".data).resolutionArg = some (findallDigits "1 01 2 3".data) :=
  ⟨by decide,
    (cardinality_counts_distinct_values (fun _ => []) "1 01 2 3".data
      (by decide)).1⟩

/-! ### Claim C6 -/

/-- Counterexample to C6: with zero category pages,
`_get_categories_keyboard` does not fail: it returns a keyboard whose
previous index is -1 (rendered into the callback string) and whose next
index is 0; and the commands `vote` and `all_books` do index into the empty
category sequence, which raises an uncaught `IndexError` (recorded as
`fault`) instead of signalling an `EmptyCollection` error. -/
theorem empty_catalog_counterexample :
    (_get_categories_keyboard 0 0 "vote_").prevIndex = -1 ∧
    (_get_categories_keyboard 0 0 "vote_").nextIndex = 0 ∧
    (_get_categories_keyboard 0 0 "vote_").prevData = "vote_-1" ∧
    vote true true [] = .fault ∧
    all_books true [] = .fault := by
  refine ⟨by decide, by decide, by decide, by decide, by decide⟩

/-- Claim C6 as amended: when the catalog yields zero category pages,
`_get_categories_keyboard` signals no error: for every callback tag it
returns a keyboard with previous index -1 and next index 0; the commands
`vote` and `all_books` raise an uncaught `IndexError` by indexing into the
empty category sequence, with no dedicated empty-collection handling. -/
theorem empty_catalog_behavior (p : String) :
    (_get_categories_keyboard 0 0 p).prevIndex = -1 ∧
    (_get_categories_keyboard 0 0 p).nextIndex = 0 ∧
    vote true true [] = .fault ∧
    all_books true [] = .fault := by
  refine ⟨rfl, rfl, rfl, rfl⟩

/-! ### Claim C3 -/

/-- Counterexample to C3: with a single-category catalog, the callback
token whose numeric suffix is 1 (equal to the category count) makes both
`vote_button` and `all_books_button` access the category list out of
range: the uncaught `IndexError` is recorded as `fault`; the index is
neither ignored nor clamped. -/
theorem out_of_range_page_counterexample :
    vote_button (some "vote_1".data) [{ name := "Cat", books := [] }] =
      .fault ∧
    all_books_button (some "all_books_1".data)
      [{ name := "Cat", books := [] }] = .fault := by
  refine ⟨by decide, by decide⟩

/-- Claim C3 as amended: for every callback token built from the configured
tag and a nonempty digit suffix whose value is at least the number of
categories currently in the catalog, `vote_button` and `all_books_button`
neither ignore nor clamp the index: the out-of-range list access raises an
uncaught `IndexError`, recorded as the `fault` outcome. -/
theorem out_of_range_page_faults (categories : List Category)
    (ds : List Char) (_hne : ds ≠ [])
    (_hdig : ∀ c ∈ ds, c.isDigit = true)
    (hoob : categories.length ≤ runToNat ds) :
    vote_button (some ("vote_".data ++ ds)) categories = .fault ∧
    all_books_button (some ("all_books_".data ++ ds)) categories = .fault := by
  have hv : ("vote_".data).all Char.isWhitespace = false := by decide
  have ha : ("all_books_".data).all Char.isWhitespace = false := by decide
  have hdv : ("vote_".data ++ ds).drop VOTE_BOOKS_CALLBACK.length = ds :=
    List.drop_left _ _
  have hda : ("all_books_".data ++ ds).drop ALL_BOOKS_CALLBACK.length = ds :=
    List.drop_left _ _
  constructor
  · simp only [vote_button, List.all_append, hv, Bool.false_and,
      Bool.false_eq_true, if_false, hdv]
    rw [if_neg (by omega)]
  · simp only [all_books_button, List.all_append, ha, Bool.false_and,
      Bool.false_eq_true, if_false, hda]
    rw [if_neg (by omega)]

/-- Witness for the amended C3 with the digit suffix "5" and a
single-category catalog. -/
theorem out_of_range_page_faults_witness :
    ("5".data ≠ []) ∧ (∀ c ∈ "5".data, c.isDigit = true) ∧
    ([{ name := "Cat", books := [] }] : List Category).length ≤
      runToNat "5".data ∧
    vote_button (some ("vote_".data ++ "5".data))
      [{ name := "Cat", books := [] }] = .fault :=
  ⟨by decide, by decide, by decide,
    (out_of_range_page_faults [{ name := "Cat", books := [] }] "5".data
      (by decide) (by decide) (by decide)).1⟩

/-! ### Claim C9 -/

/-- Claim C9: a callback query whose data is absent, empty or
whitespace-only (in particular the middle page-indicator button, whose
callback data is the single-space string installed by
`_get_categories_keyboard`) is answered and then ignored by `vote_button`
and `all_books_button`: no message edit happens and the catalog is never
read, so the displayed page is left unchanged for every catalog. -/
theorem whitespace_callback_ignored :
    (∀ categories : List Category,
      vote_button none categories = .ignored ∧
      all_books_button none categories = .ignored) ∧
    (∀ (d : List Char) (categories : List Category),
      d.all Char.isWhitespace = true →
      vote_button (some d) categories = .ignored ∧
      all_books_button (some d) categories = .ignored) ∧
    (∀ (i N : Int) (p : String),
      (_get_categories_keyboard i N p).middleData = " ") ∧
    (" ".data.all Char.isWhitespace = true) := by
  refine ⟨fun c => ⟨rfl, rfl⟩, ?_, fun i N p => rfl, by decide⟩
  intro d c hd
  constructor <;> simp [vote_button, all_books_button, hd]

/-- Witness for C9 at the single-space callback data of the middle
button. -/
theorem whitespace_callback_ignored_witness :
    (" ".data.all Char.isWhitespace = true) ∧
    vote_button (some " ".data) [] = .ignored :=
  ⟨by decide, (whitespace_callback_ignored.2.1 " ".data [] (by decide)).1⟩

/-! ### Claim C7 -/

theorem mem_foldl_dedupAux (l : List Nat) :
    ∀ (acc : List Nat) (x : Nat),
      x ∈ l.foldl (fun acc n => if n ∈ acc then acc else acc ++ [n]) acc →
      x ∈ acc ∨ x ∈ l := by
  induction l with
  | nil => exact fun acc x hx => Or.inl hx
  | cons n t ih =>
    intro acc x hx
    rw [List.foldl_cons] at hx
    rcases ih _ x hx with h | h
    · by_cases hn : n ∈ acc
      · rw [if_pos hn] at h
        exact Or.inl h
      · rw [if_neg hn] at h
        rcases List.mem_append.1 h with h | h
        · exact Or.inl h
        · rw [List.mem_singleton] at h
          exact Or.inr (h ▸ List.mem_cons_self n t)
    · exact Or.inr (List.mem_cons_of_mem n h)

theorem mem_of_mem_dedupFirst {x : Nat} {l : List Nat}
    (hx : x ∈ dedupFirst l) : x ∈ l := by
  rcases mem_foldl_dedupAux l [] x hx with h | h
  · exact absurd h (List.not_mem_nil x)
  · exact h

theorem filterMap_getBook_eq_map (catalog : List Book) :
    ∀ l : List Nat, (∀ n ∈ l, 1 ≤ n ∧ n ≤ catalog.length) →
      l.filterMap (fun n => if n = 0 then none else catalog[n - 1]?) =
        l.map (fun n => catalog.getD (n - 1) { id := 0, name := "" }) := by
  intro l
  induction l with
  | nil => exact fun _ => rfl
  | cons n t ih =>
    intro h
    have hn := h n (List.mem_cons_self n t)
    have hlt : n - 1 < catalog.length := by omega
    have hg : catalog[n - 1]? = some catalog[n - 1] :=
      List.getElem?_eq_getElem hlt
    rw [List.filterMap_cons, List.map_cons, if_neg (by omega), hg]
    rw [ih (fun m hm => h m (List.mem_cons_of_mem n hm))]
    rw [List.getD_eq_getElem?_getD, hg]
    rfl

/-- Claim C7: with an active voting, every input text whose distinct
extracted numbers have cardinality `VOTE_ELEMENTS_COUNT` and all resolve
against the eligible catalog is accepted: the ballot is saved, the success
message is produced, and the saved and acknowledged books follow the order
in which the numbers were first encountered in the text, including when a
number occurs more than once textually. -/
theorem accepted_vote_first_occurrence_order (catalog : List Book)
    (text : List Char)
    (hcard : (dedupFirst ((findallDigits text).map runToNat)).length =
      VOTE_ELEMENTS_COUNT)
    (hrange : ∀ n ∈ (findallDigits text).map runToNat,
      1 ≤ n ∧ n ≤ catalog.length) :
    (vote_process true (get_books_by_numbers catalog) text).response =
      .success ((dedupFirst ((findallDigits text).map runToNat)).map
        (fun n => catalog.getD (n - 1) { id := 0, name := "" })) ∧
    (vote_process true (get_books_by_numbers catalog) text).savedBallot =
      some ((dedupFirst ((findallDigits text).map runToNat)).map
        (fun n => catalog.getD (n - 1) { id := 0, name := "" })) := by
  have hsub : ∀ n ∈ dedupFirst ((findallDigits text).map runToNat),
      1 ≤ n ∧ n ≤ catalog.length :=
    fun n hn => hrange n (mem_of_mem_dedupFirst hn)
  have hbooks : get_books_by_numbers catalog (findallDigits text) =
      (dedupFirst ((findallDigits text).map runToNat)).map
        (fun n => catalog.getD (n - 1) { id := 0, name := "" }) :=
    filterMap_getBook_eq_map catalog _ hsub
  have hlen : (get_books_by_numbers catalog (findallDigits text)).length =
      VOTE_ELEMENTS_COUNT := by
    rw [hbooks, List.length_map, hcard]
  constructor <;> simp [vote_process, hcard, hlen, hbooks]

/-- Witness for C7: a three-book catalog and the text "2 1 2 3", in which
the number 2 occurs twice; the saved ballot lists the books of numbers
2, 1, 3 in exactly that first-occurrence order. -/
theorem accepted_vote_first_occurrence_order_witness :
    (dedupFirst ((findallDigits "2 1 2 3".data).map runToNat)).length =
      VOTE_ELEMENTS_COUNT ∧
    (∀ n ∈ (findallDigits "2 1 2 3".data).map runToNat,
      1 ≤ n ∧ n ≤ ([{ id := 1, name := "a" }, { id := 2, name := "b" },
        { id := 3, name := "c" }] : List Book).length) ∧
    (vote_process true
      (get_books_by_numbers [{ id := 1, name := "a" },
        { id := 2, name := "b" }, { id := 3, name := "c" }])
      "2 1 2 3".data).savedBallot =
      some [{ id := 2, name := "b" }, { id := 1, name := "a" },
        { id := 3, name := "c" }] :=
  ⟨by decide, by decide,
    ((accepted_vote_first_occurrence_order
      [{ id := 1, name := "a" }, { id := 2, name := "b" },
        { id := 3, name := "c" }] "2 1 2 3".data
      (by decide) (by decide)).2).trans (by decide)⟩

/-! ### Claim C8 -/

theorem modifyHead_nil_append (l : List (List Char)) :
    l.modifyHead (fun h => List.reverse [] ++ h) = l := by
  cases l <;> rfl

theorem findallAux_eq_splitOnP (l : List Char) :
    ∀ acc : List Char,
      findallAux l acc =
        ((l.splitOnP (fun a => !a.isDigit)).modifyHead
          (fun h => acc.reverse ++ h)).filter (fun r => !r.isEmpty) := by
  induction l with
  | nil =>
    intro acc
    simp only [findallAux, List.splitOnP_nil, List.modifyHead_cons,
      List.append_nil]
    by_cases hacc : acc.isEmpty
    · have hacc' : acc = [] := List.isEmpty_iff.1 hacc
      subst hacc'
      simp
    · have hacc' : acc ≠ [] := fun h => hacc (by simp [h])
      rw [if_neg hacc]
      rw [List.filter_cons]
      simp [hacc']
  | cons c cs ih =>
    intro acc
    by_cases hc : c.isDigit
    · simp only [findallAux]
      rw [if_pos hc, ih]
      rw [List.splitOnP_cons, if_neg (by simp [hc])]
      obtain ⟨h, t, hht⟩ : ∃ h t,
          cs.splitOnP (fun a => !a.isDigit) = h :: t := by
        rcases hsp : cs.splitOnP (fun a => !a.isDigit) with _ | ⟨h, t⟩
        · exact absurd hsp (List.splitOnP_ne_nil _ _)
        · exact ⟨h, t, hsp⟩
      rw [hht]
      simp only [List.modifyHead_cons, List.reverse_cons, List.append_assoc,
        List.singleton_append]
    · simp only [findallAux]
      rw [if_neg hc]
      by_cases hacc : acc.isEmpty
      · rw [if_pos hacc]
        have hacc' : acc = [] := List.isEmpty_iff.1 hacc
        subst hacc'
        rw [ih []]
        simp only [modifyHead_nil_append]
        rw [List.splitOnP_cons, if_pos (by simp [hc])]
        rw [List.filter_cons]
        simp
      · rw [if_neg hacc]
        rw [ih []]
        simp only [modifyHead_nil_append]
        rw [List.splitOnP_cons, if_pos (by simp [hc]), List.modifyHead_cons,
          List.append_nil]
        rw [List.filter_cons]
        have hacc' : acc ≠ [] := fun h => hacc (by simp [h])
        simp [hacc']

theorem findallDigits_eq_maximal_runs (text : List Char) :
    findallDigits text =
      (text.splitOnP (fun a => !a.isDigit)).filter (fun r => !r.isEmpty) := by
  rw [findallDigits, findallAux_eq_splitOnP text [], modifyHead_nil_append]

/-- Claim C8: the extraction stage of `vote_process` yields exactly the
maximal digit runs of the raw input text, in order of occurrence, ignoring
all non-digit characters: the extracted runs are the nonempty pieces
obtained by splitting the text at its non-digit characters, and they are
interpreted as integers; in particular the text "я бы выбрал 1, 2 и 3"
yields the runs "1", "2", "3" with values 1, 2, 3. -/
theorem extraction_is_maximal_digit_runs :
    (∀ text : List Char,
      findallDigits text =
        (text.splitOnP (fun a => !a.isDigit)).filter (fun r => !r.isEmpty)) ∧
    findallDigits "я бы выбрал 1, 2 и 3".data = [['1'], ['2'], ['3']] ∧
    (findallDigits "я бы выбрал 1, 2 и 3".data).map runToNat = [1, 2, 3] := by
  refine ⟨findallDigits_eq_maximal_runs, by decide, by decide⟩

end Botanim
